import Mathlib

/-!
# Terrain3DStorage: data model, lookup tables and storage operations

A shallow embedding of `src/terrain_storage.h`.

Conventions of the embedding.

* A `float` is modelled by the rational number it denotes. Every float literal
  the development evaluates (`0.0f`, `0.5f`, `1.0f`) is a dyadic rational and
  is therefore represented exactly; the only float operations used are
  comparison, minimum and maximum, which are exact on finite values.
  NaN and the infinities are outside the model.
* A C++ enum is an inductive type together with its numeric value.
* A member function that is not `const` takes the storage and returns its
  result together with the storage it leaves behind; a `void` member function
  returns the unit value together with that storage.
* `TypedArray<T>` is a `List`; `Ref<Image>` that may be null is an `Option`.
-/

set_option linter.unusedVariables false

namespace Terrain3D

/-! ## Value types of the engine -/

/-- Colour with four float channels, as built by `Color(r, g, b, a)`. -/
structure Color where
  r : ℚ
  g : ℚ
  b : ℚ
  a : ℚ
deriving DecidableEq

/-- Float pair `Vector2`. -/
structure Vector2 where
  x : ℚ
  y : ℚ
deriving DecidableEq

/-- Integer pair `Vector2i`. -/
structure Vector2i where
  x : Int
  y : Int
deriving DecidableEq

/-- Float triple `Vector3`; `y` is the height axis. -/
structure Vector3 where
  x : ℚ
  y : ℚ
  z : ℚ
deriving DecidableEq

/-- Resource handle `RID`; `RID()` is the null handle 0. -/
structure RID where
  id : Nat
deriving DecidableEq

/-- Pixel format `Image::Format`: an enum of the imaging library, carried by
its integer value so that the cast `Image::Format(n)` can be written. The
enumerators `FORMAT_RF` and `FORMAT_RGBA8` are declared outside the repository
and are taken as parameters wherever they are used. -/
structure ImageFormat where
  val : Int
deriving DecidableEq

/-! ## Macros of `terrain_storage.h`, lines 17-22 -/

def COLOR_ZERO : Color := ⟨0, 0, 0, 0⟩
def COLOR_BLACK : Color := ⟨0, 0, 0, 1⟩
def COLOR_WHITE : Color := ⟨1, 1, 1, 1⟩
def COLOR_ROUGHNESS : Color := ⟨1, 1, 1, 1 / 2⟩
def COLOR_RB : Color := ⟨1, 0, 1, 1⟩
def COLOR_NORMAL : Color := ⟨1 / 2, 1 / 2, 1, 1⟩

/-! ## Enums and lookup tables, lines 27-65 -/

/-- The enum `MapType`. -/
inductive MapType
  | TYPE_HEIGHT
  | TYPE_CONTROL
  | TYPE_COLOR
  | TYPE_MAX
deriving DecidableEq

/-- Numeric value of a `MapType` enumerator (implicit numbering from 0). -/
def MapType.toNat : MapType → Nat
  | .TYPE_HEIGHT => 0
  | .TYPE_CONTROL => 1
  | .TYPE_COLOR => 2
  | .TYPE_MAX => 3

/-- The table `FORMAT[]`, over the two enumerators of the imaging library. -/
def FORMAT (FORMAT_RF FORMAT_RGBA8 : ImageFormat) : List ImageFormat :=
  [ FORMAT_RF,                              -- TYPE_HEIGHT
    FORMAT_RGBA8,                           -- TYPE_CONTROL
    FORMAT_RGBA8,                           -- TYPE_COLOR
    ⟨(MapType.TYPE_MAX.toNat : Int)⟩ ]      -- Image::Format(TYPE_MAX)

/-- The table `TYPESTR[]`. -/
def TYPESTR : List String :=
  [ "TYPE_HEIGHT", "TYPE_CONTROL", "TYPE_COLOR", "TYPE_MAX" ]

/-- The table `COLOR[]`. -/
def COLOR : List Color :=
  [ COLOR_BLACK,      -- TYPE_HEIGHT
    COLOR_BLACK,      -- TYPE_CONTROL
    COLOR_ROUGHNESS,  -- TYPE_COLOR
    COLOR_ZERO ]      -- TYPE_MAX

/-- The enum `RegionSize`. -/
inductive RegionSize
  | SIZE_64
  | SIZE_128
  | SIZE_256
  | SIZE_512
  | SIZE_1024
  | SIZE_2048
deriving DecidableEq

/-- Numeric value of a `RegionSize` enumerator, as written in the enum. -/
def RegionSize.toNat : RegionSize → Nat
  | .SIZE_64 => 64
  | .SIZE_128 => 128
  | .SIZE_256 => 256
  | .SIZE_512 => 512
  | .SIZE_1024 => 1024
  | .SIZE_2048 => 2048

def REGION_MAP_SIZE : Int := 16

def REGION_MAP_VSIZE : Vector2i := ⟨REGION_MAP_SIZE, REGION_MAP_SIZE⟩

/-! ## State of the storage, lines 67-127 -/

/-- Raster tile: the class `Image` of the imaging library, reduced to what the
storage reads from it (size, pixel format, pixels in row order). A
single-channel tile keeps its value in the red channel of each pixel. -/
structure Image where
  size : Vector2i
  format : ImageFormat
  pixels : List Color
deriving DecidableEq

/-- The struct `Generated`, with its default member initialisers. -/
structure Generated where
  rid : RID := ⟨0⟩
  image : Option Image := none
  dirty : Bool := false
deriving DecidableEq

/-- Member `Generated::is_dirty`. -/
def Generated.is_dirty (self : Generated) : Bool × Generated :=
  (self.dirty, self)

/-- Member `Generated::get_image` (const). -/
def Generated.get_image (self : Generated) : Option Image :=
  self.image

/-- Member `Generated::get_rid`. -/
def Generated.get_rid (self : Generated) : RID × Generated :=
  (self.rid, self)

/-- Data members of `Terrain3DStorage` with their default member initialisers.
The members that only configure the material (terrain pointer, version, shader,
noise parameters, surfaces) take no part in the operations below and are left
out. -/
structure Terrain3DStorage where
  region_size : RegionSize := RegionSize.SIZE_1024
  region_vsize : Vector2i := ⟨(region_size.toNat : Int), (region_size.toNat : Int)⟩
  region_offsets : List Vector2i := []
  height_maps : List Image := []
  control_maps : List Image := []
  color_maps : List Image := []
  _height_range : Vector2 := ⟨0, 0⟩
  generated_region_map : Generated := {}
  generated_region_blend_map : Generated := {}
  generated_height_maps : Generated := {}
  generated_control_maps : Generated := {}
  generated_color_maps : Generated := {}
  generated_albedo_textures : Generated := {}
  generated_normal_textures : Generated := {}
  _initialized : Bool := false
  _modified : Bool := false
deriving DecidableEq

/-! ## Inline member functions of `Terrain3DStorage`, lines 146-232 -/

def get_region_size (self : Terrain3DStorage) : RegionSize :=
  self.region_size

def get_region_offsets (self : Terrain3DStorage) : List Vector2i :=
  self.region_offsets

def get_region_count (self : Terrain3DStorage) : Nat :=
  self.region_offsets.length

def get_height_maps (self : Terrain3DStorage) : List Image :=
  self.height_maps

def get_control_maps (self : Terrain3DStorage) : List Image :=
  self.control_maps

def get_color_maps (self : Terrain3DStorage) : List Image :=
  self.color_maps

/-- Type of the member `get_pixel(p_map_type, p_global_position)`, which the
header declares (line 198) and defines elsewhere: it is not `const`, so it
returns the colour together with the storage it leaves behind. -/
abbrev GetPixel : Type :=
  Terrain3DStorage → MapType → Vector3 → Color × Terrain3DStorage

/-- Member `get_height`, line 199, over the declared `get_pixel`. -/
def get_height (get_pixel : GetPixel) (self : Terrain3DStorage)
    (p_global_position : Vector3) : ℚ × Terrain3DStorage :=
  let px := get_pixel self MapType.TYPE_HEIGHT p_global_position
  (px.1.r, px.2)

/-- Member `get_control`, line 201, over the declared `get_pixel`. -/
def get_control (get_pixel : GetPixel) (self : Terrain3DStorage)
    (p_global_position : Vector3) : Color × Terrain3DStorage :=
  get_pixel self MapType.TYPE_CONTROL p_global_position

/-- Member `get_roughness`, line 202, over the declared `get_pixel`. -/
def get_roughness (get_pixel : GetPixel) (self : Terrain3DStorage)
    (p_global_position : Vector3) : ℚ × Terrain3DStorage :=
  let px := get_pixel self MapType.TYPE_COLOR p_global_position
  (px.1.a, px.2)

/-- Member `get_region_blend_map`, line 222: forwards to `Generated::get_rid`
on the blend-map entry and stores back the entry that call leaves behind. -/
def get_region_blend_map (self : Terrain3DStorage) : RID × Terrain3DStorage :=
  let res := self.generated_region_blend_map.get_rid
  (res.1, { self with generated_region_blend_map := res.2 })

/-! ## Member functions declared in the header and defined elsewhere

The header declares these members; their bodies are not part of the sources at
hand. Each one is modelled from the specification, with the signature the
header gives it. -/

/-- Modelled from the spec: the error taxonomy of section 7 (the engine type
`Error` that `add_region` returns is declared outside the repository), with
`OK` for success. -/
inductive Error
  | OK
  | NotFound
  | AlreadyExists
  | GridBoundsExceeded
  | IndexOutOfRange
  | CountMismatch
  | DuplicateCoordinate
deriving DecidableEq

/-- Modelled from the spec: body of `_get_offset_from` (declared line 137).
Section 4.1: the world position is converted to a region grid coordinate by
floor-dividing by the region size; the two ground axes are `x` and `z`. -/
def _get_offset_from (self : Terrain3DStorage) (p_global_position : Vector3) : Vector2i :=
  ⟨Rat.floor (p_global_position.x / (self.region_size.toNat : ℚ)),
   Rat.floor (p_global_position.z / (self.region_size.toNat : ℚ))⟩

/-- Position of the first occurrence of a coordinate in the coordinate list. -/
def find_offset (uv_offset : Vector2i) : List Vector2i → Option Nat
  | [] => none
  | c :: cs => if c = uv_offset then some 0 else (find_offset uv_offset cs).map (· + 1)

/-- Modelled from the spec: body of `get_region_index` (declared line 182).
Section 4.1: the dense index of the region registered at the grid coordinate
of the position, or NOT_FOUND (`none`). -/
def get_region_index (self : Terrain3DStorage) (p_global_position : Vector3) : Option Nat :=
  find_offset (_get_offset_from self p_global_position) self.region_offsets

/-- Modelled from the spec: body of `has_region` (declared line 181).
Section 4.1: reports membership of the grid coordinate of the position. -/
def has_region (self : Terrain3DStorage) (p_global_position : Vector3) : Bool :=
  (get_region_index self p_global_position).isSome

/-- Modelled from the spec: the fixed grid extent of section 3, a square of
`REGION_MAP_SIZE` cells per side, centred on the origin. -/
def in_region_grid (uv_offset : Vector2i) : Bool :=
  decide (-(REGION_MAP_SIZE / 2) ≤ uv_offset.x) && decide (uv_offset.x < REGION_MAP_SIZE / 2) &&
  decide (-(REGION_MAP_SIZE / 2) ≤ uv_offset.y) && decide (uv_offset.y < REGION_MAP_SIZE / 2)

/-- Modelled from the spec: body of `get_filled_image` (declared line 214): a
tile of the given size and format whose pixels all hold the given colour.
Mipmaps are not part of the model. -/
def get_filled_image (p_size : Vector2i) (p_color : Color) (create_mipmaps : Bool)
    (format : ImageFormat) : Image :=
  { size := p_size, format := format,
    pixels := List.replicate (p_size.x.toNat * p_size.y.toNat) p_color }

/-- Modelled from the spec: the per-candidate rule of `sanitize_maps` (declared
line 203). Section 4.2: a candidate that is absent or malformed (wrong size,
wrong pixel format) is replaced by a tile filled with the default value of the
layer; a well-formed candidate passes through unchanged. -/
def sanitize_image (FORMAT_RF FORMAT_RGBA8 : ImageFormat) (self : Terrain3DStorage)
    (p_map_type : MapType) (candidate : Option Image) : Image :=
  let format := (FORMAT FORMAT_RF FORMAT_RGBA8).getD p_map_type.toNat FORMAT_RF
  let color := COLOR.getD p_map_type.toNat COLOR_BLACK
  match candidate with
  | some img =>
      if img.size = self.region_vsize ∧ img.format = format then img
      else get_filled_image self.region_vsize color true format
  | none => get_filled_image self.region_vsize color true format

/-- Least and greatest of a non-empty run of heights; `none` on an empty run. -/
def min_max_of : List ℚ → Option Vector2
  | [] => none
  | p :: ps => some ⟨ps.foldl min p, ps.foldl max p⟩

/-- Modelled from the spec: body of `get_min_max` (declared line 212): the
(min, max) of the heights of a tile, read from the red channel; a null
reference has none. -/
def get_min_max (p_image : Option Image) : Option Vector2 :=
  match p_image with
  | none => none
  | some img => min_max_of (img.pixels.map Color.r)

/-- Modelled from the spec: the incremental height-range update that every
mutation of the tile store triggers (sections 2 and 4.3): the extremes of the
edited tile are compared against the cached (min, max), which is widened as
needed and never narrowed. -/
def widen_height_range (self : Terrain3DStorage) (extremes : Vector2) : Terrain3DStorage :=
  { self with _height_range :=
    ⟨min self._height_range.x extremes.x, max self._height_range.y extremes.y⟩ }

/-- Marks a generated-resource entry stale. -/
def Generated.mark_dirty (self : Generated) : Generated :=
  { self with dirty := true }

/-- Marks the entries built from the registry and the tile store as stale: the
two region maps and the three per-layer arrays. -/
def mark_regions_dirty (self : Terrain3DStorage) : Terrain3DStorage :=
  { self with
    generated_region_map := self.generated_region_map.mark_dirty
    generated_region_blend_map := self.generated_region_blend_map.mark_dirty
    generated_height_maps := self.generated_height_maps.mark_dirty
    generated_control_maps := self.generated_control_maps.mark_dirty
    generated_color_maps := self.generated_color_maps.mark_dirty }

/-- Modelled from the spec: body of `add_region` (declared line 179).
Sections 3 and 4.1: fails with `AlreadyExists` when the coordinate is already
registered and with `GridBoundsExceeded` when it lies outside the grid, in both
cases without any change; otherwise accepts or allocates one tile per layer,
appends the coordinate and the three tiles, marks the affected generated
entries stale and widens the height range by the extremes of the new height
tile (section 2). The specification gives no meaning to `p_update`. -/
def add_region (FORMAT_RF FORMAT_RGBA8 : ImageFormat) (self : Terrain3DStorage)
    (p_global_position : Vector3) (p_images : List (Option Image)) (p_update : Bool) :
    Error × Terrain3DStorage :=
  let uv_offset := _get_offset_from self p_global_position
  if has_region self p_global_position then (Error.AlreadyExists, self)
  else if !in_region_grid uv_offset then (Error.GridBoundsExceeded, self)
  else
    let tile := fun (t : MapType) =>
      sanitize_image FORMAT_RF FORMAT_RGBA8 self t (p_images.getD t.toNat none)
    let height := tile MapType.TYPE_HEIGHT
    let added : Terrain3DStorage :=
      { self with
        region_offsets := self.region_offsets ++ [uv_offset]
        height_maps := self.height_maps ++ [height]
        control_maps := self.control_maps ++ [tile MapType.TYPE_CONTROL]
        color_maps := self.color_maps ++ [tile MapType.TYPE_COLOR] }
    let ranged : Terrain3DStorage :=
      match get_min_max (some height) with
      | none => added
      | some range => widen_height_range added range
    (Error.OK, mark_regions_dirty ranged)

/-- Modelled from the spec: body of `remove_region` (declared line 180, return
type `void`). Sections 3 and 4.1: when no region is registered at the position
the call fails and nothing is changed; otherwise the dense index is removed
from the coordinate list and from the three tile sequences, every greater
index moving down by one, and the affected generated entries are marked stale.
The specification gives no meaning to `p_update`. -/
def remove_region (self : Terrain3DStorage) (p_global_position : Vector3) (p_update : Bool) :
    Unit × Terrain3DStorage :=
  match get_region_index self p_global_position with
  | none => ((), self)
  | some index =>
      ((), mark_regions_dirty
        { self with
          region_offsets := self.region_offsets.eraseIdx index
          height_maps := self.height_maps.eraseIdx index
          control_maps := self.control_maps.eraseIdx index
          color_maps := self.color_maps.eraseIdx index })

/-! ## Sequences of registry calls -/

/-- One call of `add_region` or `remove_region`, with its arguments. -/
inductive RegionCall
  | add (p_global_position : Vector3) (p_images : List (Option Image)) (p_update : Bool)
  | remove (p_global_position : Vector3) (p_update : Bool)

/-- Storage left behind by one call. -/
def RegionCall.run (FORMAT_RF FORMAT_RGBA8 : ImageFormat) (self : Terrain3DStorage) :
    RegionCall → Terrain3DStorage
  | .add pos images upd => (add_region FORMAT_RF FORMAT_RGBA8 self pos images upd).2
  | .remove pos upd => (remove_region self pos upd).2

/-- Storage left behind by a sequence of calls, first call first. -/
def run_calls (FORMAT_RF FORMAT_RGBA8 : ImageFormat) (self : Terrain3DStorage)
    (calls : List RegionCall) : Terrain3DStorage :=
  calls.foldl (RegionCall.run FORMAT_RF FORMAT_RGBA8) self

/-- The registry and the three tile sequences have the same length. -/
def lengths_agree (self : Terrain3DStorage) : Prop :=
  get_region_count self = self.height_maps.length ∧
  get_region_count self = self.control_maps.length ∧
  get_region_count self = self.color_maps.length

/-- Default-constructed storage whose blend-map entry has been marked stale. -/
def dirty_blend_storage : Terrain3DStorage :=
  { generated_region_blend_map := { rid := ⟨7⟩, dirty := true } }

/-- World origin. -/
def origin : Vector3 := ⟨0, 0, 0⟩

/-- Storage of the default region size holding one region, at grid coordinate
(0, 0): a height tile uniformly at height 10, default-filled control and colour
tiles, and the tracked height range (0, 10). The formats 8 and 5 stand for
`FORMAT_RF` and `FORMAT_RGBA8`. -/
def one_region_storage : Terrain3DStorage :=
  { region_offsets := [⟨0, 0⟩]
    height_maps := [get_filled_image ⟨1024, 1024⟩ ⟨10, 0, 0, 1⟩ true ⟨8⟩]
    control_maps := [get_filled_image ⟨1024, 1024⟩ COLOR_BLACK true ⟨5⟩]
    color_maps := [get_filled_image ⟨1024, 1024⟩ COLOR_ROUGHNESS true ⟨5⟩]
    _height_range := ⟨0, 10⟩ }

/-! ## Lookup tables and enums -/

/-- C1: for every world position and every storage state, `get_height` returns
the red channel of `get_pixel(TYPE_HEIGHT, pos)` and `get_roughness` returns the
alpha channel of `get_pixel(TYPE_COLOR, pos)`, whatever `get_pixel` computes;
both leave the storage exactly as that `get_pixel` call leaves it. -/
theorem get_height_get_roughness_select_channel (get_pixel : GetPixel)
    (self : Terrain3DStorage) (pos : Vector3) :
    (get_height get_pixel self pos).1 = (get_pixel self MapType.TYPE_HEIGHT pos).1.r ∧
    (get_roughness get_pixel self pos).1 = (get_pixel self MapType.TYPE_COLOR pos).1.a ∧
    (get_height get_pixel self pos).2 = (get_pixel self MapType.TYPE_HEIGHT pos).2 ∧
    (get_roughness get_pixel self pos).2 = (get_pixel self MapType.TYPE_COLOR pos).2 :=
  ⟨rfl, rfl, rfl, rfl⟩

/-- C3: the table `FORMAT` maps `TYPE_HEIGHT` to `FORMAT_RF` and both
`TYPE_CONTROL` and `TYPE_COLOR` to `FORMAT_RGBA8`. -/
theorem FORMAT_of_each_layer (FORMAT_RF FORMAT_RGBA8 : ImageFormat) :
    (FORMAT FORMAT_RF FORMAT_RGBA8)[MapType.TYPE_HEIGHT.toNat]? = some FORMAT_RF ∧
    (FORMAT FORMAT_RF FORMAT_RGBA8)[MapType.TYPE_CONTROL.toNat]? = some FORMAT_RGBA8 ∧
    (FORMAT FORMAT_RF FORMAT_RGBA8)[MapType.TYPE_COLOR.toNat]? = some FORMAT_RGBA8 :=
  ⟨rfl, rfl, rfl⟩

/-- C4: `COLOR[TYPE_HEIGHT]` and `COLOR[TYPE_CONTROL]` are one and the same
colour, and its red, green and blue channels are all 0. -/
theorem COLOR_height_control_black :
    ∃ c : Color,
      COLOR[MapType.TYPE_HEIGHT.toNat]? = some c ∧
      COLOR[MapType.TYPE_CONTROL.toNat]? = some c ∧
      c.r = 0 ∧ c.g = 0 ∧ c.b = 0 :=
  ⟨COLOR_BLACK, rfl, rfl, rfl, rfl, rfl⟩

/-- C5, as stated, fails: `COLOR[TYPE_COLOR]` is not a colour whose red, green,
blue and alpha channels are all 0.5. -/
theorem COLOR_color_layer_not_mid_gray :
    ¬ ∃ c : Color,
      COLOR[MapType.TYPE_COLOR.toNat]? = some c ∧
      c.r = 1 / 2 ∧ c.g = 1 / 2 ∧ c.b = 1 / 2 ∧ c.a = 1 / 2 := by
  rintro ⟨c, hc, hr, -⟩
  have h : c = COLOR_ROUGHNESS := by
    simpa [COLOR, MapType.toNat] using hc.symm
  rw [h] at hr
  norm_num [COLOR_ROUGHNESS] at hr

/-- C5, amended: `COLOR[TYPE_COLOR]` is white with half alpha, red, green and
blue each 1 and alpha 0.5. -/
theorem COLOR_color_layer_white_half_alpha :
    ∃ c : Color,
      COLOR[MapType.TYPE_COLOR.toNat]? = some c ∧
      c.r = 1 ∧ c.g = 1 ∧ c.b = 1 ∧ c.a = 1 / 2 :=
  ⟨COLOR_ROUGHNESS, rfl, rfl, rfl, rfl, rfl⟩

/-- C6: the `RegionSize` values are exactly the powers of two from 64 to 2048,
and the default `region_size` is the value 1024 with `region_vsize` equal to
(1024, 1024). -/
theorem RegionSize_exactly_powers_of_two :
    (∀ n : Nat, (∃ s : RegionSize, s.toNat = n) ↔
      ((∃ k : Nat, n = 2 ^ k) ∧ 64 ≤ n ∧ n ≤ 2048)) ∧
    ({} : Terrain3DStorage).region_size = RegionSize.SIZE_1024 ∧
    (get_region_size {}).toNat = 1024 ∧
    ({} : Terrain3DStorage).region_vsize = ⟨1024, 1024⟩ := by
  refine ⟨fun n => ⟨?_, ?_⟩, rfl, rfl, rfl⟩
  · rintro ⟨s, rfl⟩
    cases s
    · exact ⟨⟨6, rfl⟩, by decide, by decide⟩
    · exact ⟨⟨7, rfl⟩, by decide, by decide⟩
    · exact ⟨⟨8, rfl⟩, by decide, by decide⟩
    · exact ⟨⟨9, rfl⟩, by decide, by decide⟩
    · exact ⟨⟨10, rfl⟩, by decide, by decide⟩
    · exact ⟨⟨11, rfl⟩, by decide, by decide⟩
  · rintro ⟨⟨k, rfl⟩, hlo, hhi⟩
    have h6 : 6 ≤ k := by
      by_contra hk
      have hlt : 2 ^ k < 2 ^ 6 := Nat.pow_lt_pow_right (by decide) (by omega)
      omega
    have h11 : k ≤ 11 := by
      by_contra hk
      have hlt : 2 ^ 12 ≤ 2 ^ k := Nat.pow_le_pow_right (by decide) (by omega)
      omega
    interval_cases k
    · exact ⟨RegionSize.SIZE_64, rfl⟩
    · exact ⟨RegionSize.SIZE_128, rfl⟩
    · exact ⟨RegionSize.SIZE_256, rfl⟩
    · exact ⟨RegionSize.SIZE_512, rfl⟩
    · exact ⟨RegionSize.SIZE_1024, rfl⟩
    · exact ⟨RegionSize.SIZE_2048, rfl⟩

/-- C10: each of the tables `FORMAT`, `TYPESTR` and `COLOR` has exactly
`TYPE_MAX + 1 = 4` entries, every `MapType` value (the sentinel `TYPE_MAX`
included) indexes inside each of them, and the `TYPE_MAX` entry of `COLOR` is
the all-zero colour. -/
theorem tables_cover_every_MapType (FORMAT_RF FORMAT_RGBA8 : ImageFormat) :
    (FORMAT FORMAT_RF FORMAT_RGBA8).length = MapType.TYPE_MAX.toNat + 1 ∧
    TYPESTR.length = MapType.TYPE_MAX.toNat + 1 ∧
    COLOR.length = MapType.TYPE_MAX.toNat + 1 ∧
    MapType.TYPE_MAX.toNat + 1 = 4 ∧
    (∀ t : MapType, t.toNat < (FORMAT FORMAT_RF FORMAT_RGBA8).length ∧
      t.toNat < TYPESTR.length ∧ t.toNat < COLOR.length) ∧
    COLOR[MapType.TYPE_MAX.toNat]? = some ⟨0, 0, 0, 0⟩ := by
  refine ⟨rfl, rfl, rfl, rfl, fun t => ?_, rfl⟩
  cases t <;> exact ⟨by simp [FORMAT, MapType.toNat], by decide, by decide⟩

/-! ## Generated-resource entries -/

/-- C7, as stated, fails: on a storage whose blend-map entry is dirty,
`get_region_blend_map` leaves that entry dirty, and so does `Generated::get_rid`
called on the dirty entry itself (`Generated::get_image` is `const` and cannot
change the entry at all). -/
theorem get_region_blend_map_keeps_dirty :
    dirty_blend_storage.generated_region_blend_map.dirty = true ∧
    (get_region_blend_map dirty_blend_storage).2.generated_region_blend_map.dirty = true ∧
    (Generated.get_rid dirty_blend_storage.generated_region_blend_map).2.dirty = true :=
  ⟨rfl, rfl, rfl⟩

/-- C7, amended: a read access rebuilds nothing. `get_region_blend_map` returns
the stored handle of the blend-map entry and leaves the whole storage as it
was, `Generated::get_rid` returns the stored handle and leaves the entry as it
was, and `Generated::get_image` returns the stored image; in particular the
dirty flag of the entry read is the same before and after. -/
theorem generated_reads_change_nothing (self : Terrain3DStorage) (entry : Generated) :
    get_region_blend_map self = (self.generated_region_blend_map.rid, self) ∧
    (get_region_blend_map self).2.generated_region_blend_map.dirty =
      self.generated_region_blend_map.dirty ∧
    entry.get_rid = (entry.rid, entry) ∧
    entry.get_image = entry.image :=
  ⟨rfl, rfl, rfl, rfl⟩

/-! ## Region registry and tile store -/

theorem find_offset_lt (uv_offset : Vector2i) (offsets : List Vector2i) (index : Nat)
    (h : find_offset uv_offset offsets = some index) : index < offsets.length := by
  induction offsets generalizing index with
  | nil => simp [find_offset] at h
  | cons c cs ih =>
    unfold find_offset at h
    split_ifs at h with hc
    · cases h
      simp
    · cases hrec : find_offset uv_offset cs with
      | none => simp [hrec] at h
      | some j =>
        simp [hrec] at h
        have := ih j hrec
        simp
        omega

theorem get_region_index_lt (self : Terrain3DStorage) (pos : Vector3) (index : Nat)
    (h : get_region_index self pos = some index) : index < get_region_count self :=
  find_offset_lt _ _ _ h

theorem lengths_agree_mark_regions_dirty (self : Terrain3DStorage) :
    lengths_agree (mark_regions_dirty self) ↔ lengths_agree self :=
  Iff.rfl

theorem lengths_agree_add_region (FORMAT_RF FORMAT_RGBA8 : ImageFormat)
    (self : Terrain3DStorage) (pos : Vector3) (images : List (Option Image)) (upd : Bool)
    (h : lengths_agree self) :
    lengths_agree (add_region FORMAT_RF FORMAT_RGBA8 self pos images upd).2 := by
  unfold add_region
  simp only []
  split_ifs
  · exact h
  · exact h
  · obtain ⟨h1, h2, h3⟩ := h
    simp only [get_region_count] at h1 h2 h3
    rw [lengths_agree_mark_regions_dirty]
    split <;>
      simp [lengths_agree, get_region_count, widen_height_range, h1.symm, h2.symm, h3.symm]

theorem lengths_agree_remove_region (self : Terrain3DStorage) (pos : Vector3) (upd : Bool)
    (h : lengths_agree self) : lengths_agree (remove_region self pos upd).2 := by
  unfold remove_region
  split
  · exact h
  · rename_i index hidx
    have hlt := get_region_index_lt self pos index hidx
    obtain ⟨h1, h2, h3⟩ := h
    simp only [get_region_count] at h1 h2 h3 hlt
    rw [lengths_agree_mark_regions_dirty]
    simp [lengths_agree, get_region_count, List.length_eraseIdx, h1.symm, h2.symm, h3.symm]

theorem lengths_agree_run_calls (FORMAT_RF FORMAT_RGBA8 : ImageFormat)
    (calls : List RegionCall) (self : Terrain3DStorage) (h : lengths_agree self) :
    lengths_agree (run_calls FORMAT_RF FORMAT_RGBA8 self calls) := by
  induction calls generalizing self with
  | nil => exact h
  | cons call rest ih =>
    apply ih
    cases call with
    | add pos images upd => exact lengths_agree_add_region _ _ _ _ _ _ h
    | remove pos upd => exact lengths_agree_remove_region _ _ _ h

/-- C2: starting from the empty storage, after every call of every sequence of
`add_region` / `remove_region` calls (so in particular of every sequence
without duplicate coordinates), `get_region_count` equals the length of each
of `height_maps`, `control_maps` and `color_maps`. The state after the first
`k` calls is the state after the calls `calls.take k`. -/
theorem region_count_eq_tile_counts (FORMAT_RF FORMAT_RGBA8 : ImageFormat)
    (calls : List RegionCall) (k : Nat) :
    get_region_count (run_calls FORMAT_RF FORMAT_RGBA8 {} (calls.take k)) =
      (run_calls FORMAT_RF FORMAT_RGBA8 {} (calls.take k)).height_maps.length ∧
    get_region_count (run_calls FORMAT_RF FORMAT_RGBA8 {} (calls.take k)) =
      (run_calls FORMAT_RF FORMAT_RGBA8 {} (calls.take k)).control_maps.length ∧
    get_region_count (run_calls FORMAT_RF FORMAT_RGBA8 {} (calls.take k)) =
      (run_calls FORMAT_RF FORMAT_RGBA8 {} (calls.take k)).color_maps.length :=
  lengths_agree_run_calls FORMAT_RF FORMAT_RGBA8 (calls.take k) {} ⟨rfl, rfl, rfl⟩

theorem has_region_empty : has_region {} origin = false := rfl

theorem get_region_index_one_region : get_region_index one_region_storage origin = some 0 := by
  simp [get_region_index, _get_offset_from, find_offset, one_region_storage, origin, Rat.floor]

theorem has_region_one_region : has_region one_region_storage origin = true := by
  simp [has_region, get_region_index_one_region]

/-- C8, as stated, fails: `remove_region` is declared `void`, so the value the
caller receives when no region is registered at the position is the very value
it receives when one is; there is no failure result to tell the two apart. -/
theorem remove_region_returns_no_result :
    has_region {} origin = false ∧
    has_region one_region_storage origin = true ∧
    (remove_region {} origin true).1 = (remove_region one_region_storage origin true).1 :=
  ⟨has_region_empty, has_region_one_region, rfl⟩

/-- C8, amended: `remove_region` returns no result. Called with a position at
which no region is registered it changes nothing; called with a position at
which a region is registered it removes the dense index of that region from
the coordinate list and from the three tile sequences, and the region count
drops by one. -/
theorem remove_region_absent_present (self : Terrain3DStorage) (pos : Vector3)
    (p_update : Bool) :
    (has_region self pos = false → remove_region self pos p_update = ((), self)) ∧
    (has_region self pos = true →
      ∃ index, get_region_index self pos = some index ∧
        (remove_region self pos p_update).2.region_offsets = self.region_offsets.eraseIdx index ∧
        (remove_region self pos p_update).2.height_maps = self.height_maps.eraseIdx index ∧
        (remove_region self pos p_update).2.control_maps = self.control_maps.eraseIdx index ∧
        (remove_region self pos p_update).2.color_maps = self.color_maps.eraseIdx index ∧
        get_region_count (remove_region self pos p_update).2 + 1 = get_region_count self) := by
  constructor
  · intro h
    cases hidx : get_region_index self pos with
    | none => simp [remove_region, hidx]
    | some index => simp [has_region, hidx] at h
  · intro h
    cases hidx : get_region_index self pos with
    | none => simp [has_region, hidx] at h
    | some index =>
      have hlt := get_region_index_lt self pos index hidx
      simp only [get_region_count] at hlt
      refine ⟨index, rfl, ?_, ?_, ?_, ?_, ?_⟩ <;>
        simp [remove_region, hidx, mark_regions_dirty, get_region_count, List.length_eraseIdx, hlt]
      omega

/-- Witness of C8, amended: on the empty storage the call at the origin changes
nothing, and on the one-region storage it removes the region at index 0. -/
theorem remove_region_absent_present_witness :
    remove_region {} origin true = ((), {}) ∧
    ∃ index, get_region_index one_region_storage origin = some index ∧
      (remove_region one_region_storage origin true).2.region_offsets =
        one_region_storage.region_offsets.eraseIdx index ∧
      (remove_region one_region_storage origin true).2.height_maps =
        one_region_storage.height_maps.eraseIdx index ∧
      (remove_region one_region_storage origin true).2.control_maps =
        one_region_storage.control_maps.eraseIdx index ∧
      (remove_region one_region_storage origin true).2.color_maps =
        one_region_storage.color_maps.eraseIdx index ∧
      get_region_count (remove_region one_region_storage origin true).2 + 1 =
        get_region_count one_region_storage :=
  ⟨(remove_region_absent_present {} origin true).1 has_region_empty,
   (remove_region_absent_present one_region_storage origin true).2 has_region_one_region⟩

/-! ## Height range -/

end Terrain3D
